import Mathlib

/-!
Verification of the AIIMS ATP triage classifier (`classify_patient_aiims_atp`
in `app.py`).  The classifier is embedded shallowly: the patient data
dictionary becomes a structure of naturals, rationals, strings and booleans,
and the imperative cascade with early returns becomes a chain of
if-then-else expressions returning the pair `(triage_level, reasons)`.
A second, dictionary-based embedding (`classifyD`) models the Python dict
accesses in the `Except` monad so that missing-key behaviour (Python's
`KeyError`) can be stated.
-/

namespace Triage

/-- The patient snapshot: every key the Streamlit form places into the
`patient_data` dictionary.  Integer-valued vitals (`hr`, `sbp`, `dbp`, `rr`,
`pain_score`) are naturals as constrained by the form's `min_value=0`;
`spo2` and `temp` are float inputs, modelled as rationals; `avpu` is the
first character of the radio choice, modelled as a string. -/
structure PatientSnapshot where
  spo2 : ℚ
  hr : ℕ
  sbp : ℕ
  dbp : ℕ
  rr : ℕ
  temp : ℚ
  avpu : String
  pain_score : ℕ
  stridor : Bool
  angioedema : Bool
  active_seizures : Bool
  talking_incomplete_sentences : Bool
  audible_wheeze : Bool
  active_bleeding : Bool
  sudden_severe_headache : Bool
  history_syncope : Bool
  agitated_violent : Bool
  acute_chest_pain_lt_24hr : Bool
  suspected_stroke_lt_24hr : Bool
  acute_sob_lt_12hr : Bool
  acute_limb_ischemia : Bool
  abdominal_pain_sudden_onset : Bool
  acute_urinary_retention : Bool
  pregnant_3rd_trimester_abdominal_bleed : Bool
  suspected_poisoning_bite : Bool
  fever_immunocompromised : Bool
  vomiting_diarrhea_persistent : Bool
  minor_trauma_with_deformity : Bool
  fever_no_red_flags : Bool
  urinary_symptoms_moderate : Bool
  older_adult_minor_fall : Bool
  pediatric_fever_irritable : Bool
  chronic_condition_exacerbation : Bool
  minor_cut_abrasion : Bool
  mild_cold_symptoms : Bool
  medication_refill_request : Bool
  deriving DecidableEq, Repr

/-- A snapshot is well formed when its consciousness value is one of the four
AVPU categories produced by the form. -/
abbrev wellFormed (d : PatientSnapshot) : Prop :=
  d.avpu ∈ (["A", "V", "P", "U"] : List String)

/-- Reason string of the airway tier (app.py line 15). -/
def airwayReason : String := "Airway compromise (Stridor/Angioedema/Active Seizures)"

/-- Reason string of the breathing tier (app.py line 21). -/
def breathingReason : String := "Breathing compromise (Abnormal RR/SpO2, Dyspnea, Wheeze)"

/-- Reason string of the circulation tier (app.py line 30). -/
def circulationReason : String := "Circulation compromise (Abnormal HR/BP, Shock Index >1, Active Bleeding)"

/-- Reason string of the consciousness tier (app.py line 35). -/
def consciousnessReason : String := "Altered sensorium (AVPU < Alert)"

/-- Reason string of the time-sensitive tier (app.py line 46). -/
def timeReason : String := "Time-sensitive/Urgent condition requiring immediate attention (including extreme temp)."

/-- Reason string of the other-urgent tier (app.py line 53). -/
def otherReason : String := "Other highly urgent condition (Agitation/Poisoning/Pregnancy complication)."

/-- Reason string of the yellow vitals tier (app.py line 64). -/
def vitalsReason : String := "Vital signs slightly abnormal, warranting urgent assessment (including fever)."

/-- Reason string of the yellow symptoms tier (app.py lines 75 and 78). -/
def semiUrgentReason : String := "Semi-urgent condition requiring evaluation/admission."

/-- Catch-all reason (app.py line 83). -/
def noCriteriaReason : String := "No specific red or yellow criteria met. Appears non-urgent."

/-- Reason of the unreachable fall-through branch (app.py line 86). -/
def minorReason : String := "Minor condition with stable vitals."

/-- Shock index (app.py line 26): heart rate over systolic BP, 0 when the
systolic BP is 0. -/
def shock_index (d : PatientSnapshot) : ℚ :=
  if d.sbp ≠ 0 then (d.hr : ℚ) / (d.sbp : ℚ) else 0

/-- Airway tier condition (app.py line 14). -/
def airway_red (d : PatientSnapshot) : Bool :=
  d.stridor || d.angioedema || d.active_seizures

/-- Breathing tier condition (app.py lines 19-20). -/
def breathing_red (d : PatientSnapshot) : Bool :=
  d.talking_incomplete_sentences || d.audible_wheeze ||
    decide (d.rr > 22) || decide (d.rr < 10) || decide (d.spo2 < 90)

/-- Circulation tier condition (app.py lines 27-29). -/
def circulation_red (d : PatientSnapshot) : Bool :=
  decide (d.hr < 50) || decide (d.hr > 120) ||
    decide (d.sbp < 90) || decide (d.sbp > 220) ||
    decide (d.dbp < 60) || decide (d.dbp > 110) ||
    decide (shock_index d > 1) || d.active_bleeding

/-- Consciousness tier condition (app.py line 34). -/
def consciousness_red (d : PatientSnapshot) : Bool :=
  decide (d.avpu ∈ (["V", "P", "U"] : List String))

/-- Time-sensitive tier condition (app.py lines 40-45). -/
def time_red (d : PatientSnapshot) : Bool :=
  d.acute_chest_pain_lt_24hr || d.suspected_stroke_lt_24hr ||
    d.acute_sob_lt_12hr || decide (d.pain_score > 7) ||
    d.sudden_severe_headache || d.acute_limb_ischemia ||
    d.history_syncope || d.abdominal_pain_sudden_onset ||
    d.fever_immunocompromised || d.acute_urinary_retention ||
    decide (d.temp > 40) || decide (d.temp < 35)

/-- Other-urgent tier condition (app.py lines 51-52). -/
def other_red (d : PatientSnapshot) : Bool :=
  d.agitated_violent || d.suspected_poisoning_bite ||
    d.pregnant_3rd_trimester_abdominal_bleed

/-- Yellow vitals band condition (app.py lines 59-63). -/
def yellow_vitals (d : PatientSnapshot) : Bool :=
  (decide (d.rr ≥ 20) && decide (d.rr ≤ 22)) ||
    (decide (d.hr ≥ 100) && decide (d.hr ≤ 120)) ||
    (decide (d.sbp ≥ 180) && decide (d.sbp ≤ 220)) ||
    (decide (d.dbp ≥ 100) && decide (d.dbp ≤ 110)) ||
    (decide (d.temp ≥ 38) && decide (d.temp ≤ 40))

/-- Yellow symptoms condition (app.py lines 69-73). -/
def yellow_symptoms (d : PatientSnapshot) : Bool :=
  (decide (d.pain_score ≥ 4) && decide (d.pain_score ≤ 7)) ||
    d.vomiting_diarrhea_persistent || d.minor_trauma_with_deformity ||
    d.fever_no_red_flags || d.urinary_symptoms_moderate ||
    d.older_adult_minor_fall || d.pediatric_fever_irritable ||
    d.chronic_condition_exacerbation

/-- State after the yellow vitals tier (app.py lines 59-66), starting from the
GREEN initial state that survives all six red tiers. -/
def yellow_s1 (d : PatientSnapshot) : String × List String :=
  if yellow_vitals d then ("YELLOW", [vitalsReason]) else ("GREEN", [])

/-- State after the yellow symptoms tier (app.py lines 69-78): upgrade from
GREEN with the reason, or append the reason to an already-YELLOW state only
when its reason list is still empty (the guard on line 77). -/
def yellow_s2 (d : PatientSnapshot) : String × List String :=
  if yellow_symptoms d then
    if (yellow_s1 d).1 = "GREEN" then
      ("YELLOW", (yellow_s1 d).2 ++ [semiUrgentReason])
    else if (yellow_s1 d).1 = "YELLOW" && (yellow_s1 d).2.isEmpty then
      ((yellow_s1 d).1, (yellow_s1 d).2 ++ [semiUrgentReason])
    else yellow_s1 d
  else yellow_s1 d

/-- The non-short-circuiting tail of the cascade (app.py lines 57-89): yellow
vitals, yellow symptoms, then the default-GREEN fallback. -/
def yellow_phase (d : PatientSnapshot) : String × List String :=
  if (yellow_s2 d).2.isEmpty then ("GREEN", [noCriteriaReason])
  else if (yellow_s2 d).1 = "GREEN" && (yellow_s2 d).2.isEmpty then
    ((yellow_s2 d).1, (yellow_s2 d).2 ++ [minorReason])
  else yellow_s2 d

/-- The classifier `classify_patient_aiims_atp` (app.py lines 8-89): six
short-circuiting RED tiers followed by the accumulating yellow phase. -/
def classify (d : PatientSnapshot) : String × List String :=
  if airway_red d then ("RED", [airwayReason])
  else if breathing_red d then ("RED", [breathingReason])
  else if circulation_red d then ("RED", [circulationReason])
  else if consciousness_red d then ("RED", [consciousnessReason])
  else if time_red d then ("RED", [timeReason])
  else if other_red d then ("RED", [otherReason])
  else yellow_phase d

/-- The snapshot built from the form's default values: every number at its
default, consciousness Alert, every checkbox unchecked. -/
def baseline : PatientSnapshot where
  spo2 := 98
  hr := 80
  sbp := 120
  dbp := 80
  rr := 16
  temp := 37
  avpu := "A"
  pain_score := 0
  stridor := false
  angioedema := false
  active_seizures := false
  talking_incomplete_sentences := false
  audible_wheeze := false
  active_bleeding := false
  sudden_severe_headache := false
  history_syncope := false
  agitated_violent := false
  acute_chest_pain_lt_24hr := false
  suspected_stroke_lt_24hr := false
  acute_sob_lt_12hr := false
  acute_limb_ischemia := false
  abdominal_pain_sudden_onset := false
  acute_urinary_retention := false
  pregnant_3rd_trimester_abdominal_bleed := false
  suspected_poisoning_bite := false
  fever_immunocompromised := false
  vomiting_diarrhea_persistent := false
  minor_trauma_with_deformity := false
  fever_no_red_flags := false
  urinary_symptoms_moderate := false
  older_adult_minor_fall := false
  pediatric_fever_irritable := false
  chronic_condition_exacerbation := false
  minor_cut_abrasion := false
  mild_cold_symptoms := false
  medication_refill_request := false

/-- C8: the all-nominal snapshot (SpO2 98, HR 80, SBP 120, DBP 80, RR 16,
Temp 37.0, Alert, pain 0, all flags false) classifies as GREEN with exactly
the one catch-all reason. -/
theorem default_green_baseline :
    classify baseline = ("GREEN", [noCriteriaReason]) := by
  norm_num [classify, airway_red, breathing_red, circulation_red,
    consciousness_red, time_red, other_red, yellow_phase, yellow_s2,
    yellow_s1, yellow_vitals, yellow_symptoms, shock_index, baseline]
  decide

/-- C1: evaluation at the spec's yellow-accumulation input (respiratory rate
21, pain score 5, everything else nominal).  The code returns YELLOW with
only the yellow-vitals reason: the guard on app.py line 77
(`triage_level == "YELLOW" and not reasons`) is unsatisfiable, so the
semi-urgent reason expected by the spec is never appended. -/
theorem yellow_both_tiers_single_reason :
    classify { baseline with rr := 21, pain_score := 5 } =
      ("YELLOW", [vitalsReason]) := by
  norm_num [classify, airway_red, breathing_red, circulation_red,
    consciousness_red, time_red, other_red, yellow_phase, yellow_s2,
    yellow_s1, yellow_vitals, yellow_symptoms, shock_index, baseline]
  decide

/-- C5: boundary exactness on the nominal snapshot.  Respiratory rate 22 is
not RED but lands in the yellow vitals band; 23 is RED via the breathing
tier; temperature 40.0 lands in the yellow band; 40.1 is RED via the
time-sensitive tier. -/
theorem boundary_exactness :
    classify { baseline with rr := 22 } = ("YELLOW", [vitalsReason]) ∧
      classify { baseline with rr := 23 } = ("RED", [breathingReason]) ∧
      classify { baseline with temp := 40 } = ("YELLOW", [vitalsReason]) ∧
      classify { baseline with temp := 40.1 } = ("RED", [timeReason]) := by
  refine ⟨?_, ?_, ?_, ?_⟩ <;>
    · norm_num [classify, airway_red, breathing_red, circulation_red,
        consciousness_red, time_red, other_red, yellow_phase, yellow_s2,
        yellow_s1, yellow_vitals, yellow_symptoms, shock_index, baseline]
      try decide

/-- C4: when the systolic BP is 0 the shock index is defined to be 0 by the
guard on app.py line 26, so the shock-index clause of the circulation tier
can never hold on its own; in particular no division-by-zero is performed. -/
theorem shock_index_zero_guard (d : PatientSnapshot) (h : d.sbp = 0) :
    shock_index d = 0 ∧ ¬ shock_index d > 1 := by
  have hz : shock_index d = 0 := by simp [shock_index, h]
  exact ⟨hz, by rw [hz]; norm_num⟩

/-- Witness for `shock_index_zero_guard` at the nominal snapshot with the
systolic BP forced to 0. -/
theorem shock_index_zero_guard_witness :
    shock_index { baseline with sbp := 0 } = 0 ∧
      ¬ shock_index { baseline with sbp := 0 } > 1 :=
  shock_index_zero_guard { baseline with sbp := 0 } rfl

/-- C9: the classifier is deterministic: evaluating it twice on equal
snapshots yields verdicts with equal level and equal reason list, in the
same order.  (Statelessness holds by construction of the embedding: the
source only reads `data` and writes the local `reasons`/`triage_level`.) -/
theorem classify_deterministic (d d' : PatientSnapshot) (h : d = d') :
    classify d = classify d' := by
  rw [h]

/-- Witness for `classify_deterministic` at the nominal snapshot. -/
theorem classify_deterministic_witness :
    classify baseline = classify baseline :=
  classify_deterministic baseline baseline rfl

/-- Updates only the three green-indicator checkboxes of a snapshot; two
well-formed snapshots differ only in those fields exactly when one is such
an update of the other. -/
def set_green_flags (d : PatientSnapshot) (a b c : Bool) : PatientSnapshot :=
  { d with minor_cut_abrasion := a, mild_cold_symptoms := b,
           medication_refill_request := c }

/-- C10: the verdict does not depend on the three green-indicator flags
(`minor_cut_abrasion`, `mild_cold_symptoms`, `medication_refill_request`):
they are placed in the data dictionary but never read by the classifier. -/
theorem green_flags_irrelevant (d : PatientSnapshot) (a b c : Bool) :
    classify (set_green_flags d a b c) = classify d := by
  cases d
  rfl

/-- Disjunction of the six short-circuiting RED tier conditions, in source
order (app.py lines 12-55). -/
def any_red (d : PatientSnapshot) : Bool :=
  airway_red d || breathing_red d || circulation_red d ||
    consciousness_red d || time_red d || other_red d

/-- The reason of the first RED tier that fires, `none` when no RED tier
fires; the order is the source's evaluation order (app.py lines 12-55). -/
def first_red_reason (d : PatientSnapshot) : Option String :=
  if airway_red d then some airwayReason
  else if breathing_red d then some breathingReason
  else if circulation_red d then some circulationReason
  else if consciousness_red d then some consciousnessReason
  else if time_red d then some timeReason
  else if other_red d then some otherReason
  else none

/-- C2: when any RED tier fires the verdict is RED with exactly one reason,
the reason of the first tier that fired; the early `return` on each RED
tier keeps every later tier from contributing. -/
theorem red_short_circuit_first_reason (d : PatientSnapshot)
    (_hwf : wellFormed d) (h : any_red d = true) :
    ∃ r, first_red_reason d = some r ∧ classify d = ("RED", [r]) := by
  unfold any_red at h
  unfold first_red_reason classify
  split_ifs <;> simp_all

/-- Witness for `red_short_circuit_first_reason`: a nominal snapshot with
stridor checked fires the airway tier. -/
theorem red_short_circuit_first_reason_witness :
    ∃ r, first_red_reason { baseline with stridor := true } = some r ∧
      classify { baseline with stridor := true } = ("RED", [r]) :=
  red_short_circuit_first_reason { baseline with stridor := true }
    (by decide) (by decide)

/-- Case analysis on the state after the yellow-vitals tier. -/
lemma yellow_s1_cases (d : PatientSnapshot) :
    yellow_s1 d = ("YELLOW", [vitalsReason]) ∨ yellow_s1 d = ("GREEN", []) := by
  unfold yellow_s1
  split_ifs <;> simp

/-- Closed form of the state after the yellow-symptoms tier: the dead guard
on app.py line 77 means the semi-urgent reason only ever appears when the
vitals tier did not fire. -/
lemma yellow_s2_eq (d : PatientSnapshot) :
    yellow_s2 d =
      if yellow_vitals d then ("YELLOW", [vitalsReason])
      else if yellow_symptoms d then ("YELLOW", [semiUrgentReason])
      else ("GREEN", []) := by
  unfold yellow_s2 yellow_s1
  cases hv : yellow_vitals d <;> cases hs : yellow_symptoms d <;>
    simp [hv, hs]

/-- Closed form of the whole yellow phase. -/
lemma yellow_phase_eq (d : PatientSnapshot) :
    yellow_phase d =
      if yellow_vitals d then ("YELLOW", [vitalsReason])
      else if yellow_symptoms d then ("YELLOW", [semiUrgentReason])
      else ("GREEN", [noCriteriaReason]) := by
  unfold yellow_phase
  rw [yellow_s2_eq]
  cases hv : yellow_vitals d <;> cases hs : yellow_symptoms d <;>
    simp [hv, hs]

/-- Case analysis on the result of the whole yellow phase. -/
lemma yellow_phase_cases (d : PatientSnapshot) :
    yellow_phase d = ("GREEN", [noCriteriaReason]) ∨
      yellow_phase d = ("YELLOW", [vitalsReason]) ∨
      yellow_phase d = ("YELLOW", [semiUrgentReason]) := by
  rw [yellow_phase_eq]
  split_ifs <;> simp

/-- C3: totality: every snapshot receives one of the three levels together
with a non-empty reason list (the catch-all reason covers the case where no
rule fires). -/
theorem classify_total_nonempty (d : PatientSnapshot) :
    ((classify d).1 = "RED" ∨ (classify d).1 = "YELLOW" ∨
      (classify d).1 = "GREEN") ∧ (classify d).2 ≠ [] := by
  unfold classify
  split_ifs <;> try simp
  rcases yellow_phase_cases d with h | h | h <;> rw [h] <;> simp

/-- Severity rank of a level string: GREEN 0, YELLOW 1, RED 2. -/
def levelRank (l : String) : ℕ :=
  if l = "RED" then 2 else if l = "YELLOW" then 1 else 0

/-- The successive `(triage_level, reasons)` states of one evaluation of
`classify_patient_aiims_atp`: the initial GREEN state (app.py lines 9-10),
the state at each RED tier actually reached, and — when no RED tier fires —
the states after the yellow-vitals tier, the yellow-symptoms tier and the
default block. -/
def classify_trace (d : PatientSnapshot) : List (String × List String) :=
  ("GREEN", []) ::
    if airway_red d then [("RED", [airwayReason])]
    else ("GREEN", []) ::
      if breathing_red d then [("RED", [breathingReason])]
      else ("GREEN", []) ::
        if circulation_red d then [("RED", [circulationReason])]
        else ("GREEN", []) ::
          if consciousness_red d then [("RED", [consciousnessReason])]
          else ("GREEN", []) ::
            if time_red d then [("RED", [timeReason])]
            else ("GREEN", []) ::
              if other_red d then [("RED", [otherReason])]
              else [yellow_s1 d, yellow_s2 d, yellow_phase d]

/-- C6: monotonicity of the cascade: along the trace of one evaluation the
level rank never decreases, and the trace ends exactly at the verdict
returned by `classify`. -/
theorem cascade_monotone (d : PatientSnapshot) :
    List.Chain' (fun a b => levelRank a.1 ≤ levelRank b.1)
      (classify_trace d) ∧
      (classify_trace d).getLast? = some (classify d) := by
  unfold classify_trace classify
  split_ifs <;> try simp [levelRank]
  rw [yellow_phase_eq, yellow_s2_eq]
  unfold yellow_s1
  cases hv : yellow_vitals d <;> cases hs : yellow_symptoms d <;>
    simp [hv, hs, levelRank]

/-- A value stored in the Python `patient_data` dictionary: a boolean flag,
a number, or the AVPU string. -/
inductive Val where
  | b : Bool → Val
  | n : ℚ → Val
  | s : String → Val
  deriving DecidableEq, Repr

/-- The patient data dictionary itself: a partial map from key strings to
values, so that absent keys can be modelled. -/
def Data := String → Option Val

/-- Build a dictionary from an association list (first binding wins). -/
def mkData (l : List (String × Val)) : Data := fun k =>
  (l.find? (fun p => p.1 == k)).map (fun p => p.2)

/-- `data[k]` used as a boolean: Python raises `KeyError` on an absent key. -/
def getB (d : Data) (k : String) : Except String Bool :=
  match d k with
  | some (Val.b v) => Except.ok v
  | some _ => Except.error ("TypeError: " ++ k)
  | none => Except.error ("KeyError: " ++ k)

/-- `data[k]` used as a number: Python raises `KeyError` on an absent key. -/
def getN (d : Data) (k : String) : Except String ℚ :=
  match d k with
  | some (Val.n v) => Except.ok v
  | some _ => Except.error ("TypeError: " ++ k)
  | none => Except.error ("KeyError: " ++ k)

/-- `data[k]` used as a string: Python raises `KeyError` on an absent key. -/
def getS (d : Data) (k : String) : Except String String :=
  match d k with
  | some (Val.s v) => Except.ok v
  | some _ => Except.error ("TypeError: " ++ k)
  | none => Except.error ("KeyError: " ++ k)

/-- Python's short-circuiting `or`: the right operand (and any error raised
while evaluating it) is only reached when the left operand is falsy. -/
def orP (x y : Except String Bool) : Except String Bool := do
  let a ← x
  if a then pure true else y

/-- Python's short-circuiting `and`. -/
def andP (x y : Except String Bool) : Except String Bool := do
  let a ← x
  if a then y else pure false

/-- Comparison `data[k] > c`. -/
def gtK (d : Data) (k : String) (c : ℚ) : Except String Bool := do
  let v ← getN d k
  pure (decide (v > c))

/-- Comparison `data[k] < c`. -/
def ltK (d : Data) (k : String) (c : ℚ) : Except String Bool := do
  let v ← getN d k
  pure (decide (v < c))

/-- Comparison `data[k] >= c`. -/
def geK (d : Data) (k : String) (c : ℚ) : Except String Bool := do
  let v ← getN d k
  pure (decide (v ≥ c))

/-- Comparison `data[k] <= c`. -/
def leK (d : Data) (k : String) (c : ℚ) : Except String Bool := do
  let v ← getN d k
  pure (decide (v ≤ c))

/-- Dictionary-level embedding of `classify_patient_aiims_atp` (app.py lines
8-89): each `data[...]` access goes through the partial map, reproducing
Python's `KeyError` on an absent key and the left-to-right short-circuit
evaluation of the `or`/`and` chains. -/
def classifyD (d : Data) : Except String (String × List String) := do
  let t1 ← orP (getB d "stridor")
    (orP (getB d "angioedema") (getB d "active_seizures"))
  if t1 then pure ("RED", [airwayReason]) else do
  let t2 ← orP (getB d "talking_incomplete_sentences")
    (orP (getB d "audible_wheeze")
      (orP (gtK d "rr" 22) (orP (ltK d "rr" 10) (ltK d "spo2" 90))))
  if t2 then pure ("RED", [breathingReason]) else do
  let sbp0 ← getN d "sbp"
  let si ← if sbp0 ≠ 0 then do
      let hrv ← getN d "hr"
      let sbpv ← getN d "sbp"
      pure (hrv / sbpv)
    else pure (0 : ℚ)
  let t3 ← orP (ltK d "hr" 50)
    (orP (gtK d "hr" 120)
      (orP (ltK d "sbp" 90)
        (orP (gtK d "sbp" 220)
          (orP (ltK d "dbp" 60)
            (orP (gtK d "dbp" 110)
              (orP (pure (decide (si > 1))) (getB d "active_bleeding")))))))
  if t3 then pure ("RED", [circulationReason]) else do
  let av ← getS d "avpu"
  if av ∈ (["V", "P", "U"] : List String) then
    pure ("RED", [consciousnessReason])
  else do
  let t5 ← orP (getB d "acute_chest_pain_lt_24hr")
    (orP (getB d "suspected_stroke_lt_24hr")
      (orP (getB d "acute_sob_lt_12hr")
        (orP (gtK d "pain_score" 7)
          (orP (getB d "sudden_severe_headache")
            (orP (getB d "acute_limb_ischemia")
              (orP (getB d "history_syncope")
                (orP (getB d "abdominal_pain_sudden_onset")
                  (orP (getB d "fever_immunocompromised")
                    (orP (getB d "acute_urinary_retention")
                      (orP (gtK d "temp" 40) (ltK d "temp" 35)))))))))))
  if t5 then pure ("RED", [timeReason]) else do
  let t6 ← orP (getB d "agitated_violent")
    (orP (getB d "suspected_poisoning_bite")
      (getB d "pregnant_3rd_trimester_abdominal_bleed"))
  if t6 then pure ("RED", [otherReason]) else do
  let y1 ← orP (andP (geK d "rr" 20) (leK d "rr" 22))
    (orP (andP (geK d "hr" 100) (leK d "hr" 120))
      (orP (andP (geK d "sbp" 180) (leK d "sbp" 220))
        (orP (andP (geK d "dbp" 100) (leK d "dbp" 110))
          (andP (geK d "temp" 38) (leK d "temp" 40)))))
  let s1 : String × List String :=
    if y1 then ("YELLOW", [vitalsReason]) else ("GREEN", [])
  let y2 ← orP (andP (geK d "pain_score" 4) (leK d "pain_score" 7))
    (orP (getB d "vomiting_diarrhea_persistent")
      (orP (getB d "minor_trauma_with_deformity")
        (orP (getB d "fever_no_red_flags")
          (orP (getB d "urinary_symptoms_moderate")
            (orP (getB d "older_adult_minor_fall")
              (orP (getB d "pediatric_fever_irritable")
                (getB d "chronic_condition_exacerbation")))))))
  let s2 : String × List String :=
    if y2 then
      if s1.1 = "GREEN" then ("YELLOW", s1.2 ++ [semiUrgentReason])
      else if s1.1 = "YELLOW" && s1.2.isEmpty then
        (s1.1, s1.2 ++ [semiUrgentReason])
      else s1
    else s1
  if s2.2.isEmpty then pure ("GREEN", [noCriteriaReason])
  else if s2.1 = "GREEN" && s2.2.isEmpty then
    pure (s2.1, s2.2 ++ [minorReason])
  else pure s2

/-- The association list the Streamlit button handler builds (app.py lines
167-206), with every value at its form default. -/
def nominalEntries : List (String × Val) :=
  [("spo2", Val.n 98), ("hr", Val.n 80), ("sbp", Val.n 120),
   ("dbp", Val.n 80), ("rr", Val.n 16), ("temp", Val.n 37),
   ("avpu", Val.s "A"), ("pain_score", Val.n 0),
   ("stridor", Val.b false), ("angioedema", Val.b false),
   ("active_seizures", Val.b false),
   ("talking_incomplete_sentences", Val.b false),
   ("audible_wheeze", Val.b false), ("active_bleeding", Val.b false),
   ("sudden_severe_headache", Val.b false),
   ("history_syncope", Val.b false), ("agitated_violent", Val.b false),
   ("acute_chest_pain_lt_24hr", Val.b false),
   ("suspected_stroke_lt_24hr", Val.b false),
   ("acute_sob_lt_12hr", Val.b false),
   ("acute_limb_ischemia", Val.b false),
   ("abdominal_pain_sudden_onset", Val.b false),
   ("acute_urinary_retention", Val.b false),
   ("pregnant_3rd_trimester_abdominal_bleed", Val.b false),
   ("suspected_poisoning_bite", Val.b false),
   ("fever_immunocompromised", Val.b false),
   ("vomiting_diarrhea_persistent", Val.b false),
   ("minor_trauma_with_deformity", Val.b false),
   ("fever_no_red_flags", Val.b false),
   ("urinary_symptoms_moderate", Val.b false),
   ("older_adult_minor_fall", Val.b false),
   ("pediatric_fever_irritable", Val.b false),
   ("chronic_condition_exacerbation", Val.b false),
   ("minor_cut_abrasion", Val.b false),
   ("mild_cold_symptoms", Val.b false),
   ("medication_refill_request", Val.b false)]

/-- Replace the value stored under a key. -/
def setKey (l : List (String × Val)) (k : String) (v : Val) :
    List (String × Val) :=
  l.map (fun p => if p.1 == k then (k, v) else p)

/-- Remove a key entirely, making it absent from the dictionary. -/
def dropKey (l : List (String × Val)) (k : String) : List (String × Val) :=
  l.filter (fun p => p.1 != k)

deriving instance DecidableEq for Except

section

attribute [local semireducible] Rat.mul Rat.inv

/-- C7 counterexample: with the consciousness value set to the malformed
string `"X"` (outside the four-state enum) and everything else nominal, the
classifier does not fail: the membership test on app.py line 34 is simply
false, `"X"` behaves exactly like Alert, and a GREEN verdict is produced. -/
theorem malformed_avpu_produces_verdict :
    classifyD (mkData (setKey nominalEntries "avpu" (Val.s "X"))) =
      Except.ok ("GREEN", [noCriteriaReason]) := by
  decide

/-- C7 amended: a snapshot whose first-read field (`stridor`) is absent makes
the classifier fail with Python's `KeyError` — the missing flag is not
defaulted to false — while a malformed consciousness value is not rejected:
evaluation completes and returns a verdict. -/
theorem invalid_input_behavior :
    classifyD (mkData (dropKey nominalEntries "stridor")) =
      Except.error "KeyError: stridor" ∧
      ∃ v, classifyD (mkData (setKey nominalEntries "avpu" (Val.s "X"))) =
        Except.ok v := by
  refine ⟨by decide, ⟨("GREEN", [noCriteriaReason]), by decide⟩⟩

end

end Triage
